import Mathlib

/-!
Verification of the AutotaskMCP server (src/autotask_mcp.py) against its
natural-language specification.  The Python source is shallowly embedded:
each pure decision (filter assembly, validation, request-body construction,
branching on lookup results) becomes an executable Lean definition; network
calls are represented by an `ApiRequest` value that a function either
produces (the call is issued) or does not (no call is made).  Lookup results
coming back from the upstream service are passed in as explicit oracle
arguments.
-/

/-- A scalar JSON value as used in Autotask request bodies. -/
inductive Value where
  | s (v : String)
  | i (v : Int)
  | b (v : Bool)
  | q (v : Rat)

/-- A filter-tree node: a plain condition with a value, a field/op pair
without a value (the always-true placeholder), or a group combining
sub-filters.  Mirrors the dict shapes built in src/autotask_mcp.py. -/
inductive FilterItem where
  | cond (field op : String) (value : Value)
  | fieldOp (op field : String)
  | group (op : String) (items : List FilterItem)

/-- The body of a query request: `MaxRecords` plus a filter array
(src/autotask_mcp.py builds dicts of exactly this shape). -/
structure QueryBody where
  maxRecords : Int
  filter : List FilterItem

/-- An outbound HTTP request as produced by `_make_api_request`
(src/autotask_mcp.py lines 126-139): a verb, a URL and an optional payload. -/
inductive ApiRequest where
  | get (url : String) (params : Option (List (String × Value)))
  | post (url : String) (data : Option (List (String × Value)))
  | patch (url : String) (data : Option (List (String × Value)))
  | delete (url : String)

/-- Python truthiness of an optional string (`if s:`): present and non-empty. -/
def pyTruthyStr (o : Option String) : Bool :=
  match o with
  | none => false
  | some s => !(s == "")

/-- Python truthiness of an optional integer (`if n:`): present and non-zero. -/
def pyTruthyInt (o : Option Int) : Bool :=
  match o with
  | none => false
  | some n => !(n == 0)

/-- ASCII whitespace stripped by Python `str.strip()` / split by `str.split(None)`. -/
def pyIsSpace (c : Char) : Bool :=
  c == ' ' || c == '\t' || c == '\n' || c == '\r' || c == '\x0b' || c == '\x0c'

/-- Drop leading whitespace characters. -/
def dropLeadingWS : List Char → List Char
  | [] => []
  | c :: cs => if pyIsSpace c then dropLeadingWS cs else c :: cs

/-- Python `str.strip()` restricted to ASCII whitespace. -/
def pyStrip (s : String) : String :=
  String.mk ((dropLeadingWS (dropLeadingWS s.data.reverse).reverse))

/-- Python `str.split(None, 1)`: skip leading whitespace, take the first
whitespace-free token, skip the separating whitespace run, and return the
remainder verbatim; at most two elements, no empty strings. -/
def pySplitN1 (s : String) : List String :=
  let cs := dropLeadingWS s.data
  match cs with
  | [] => []
  | _ =>
    let tok := cs.takeWhile (fun c => !pyIsSpace c)
    let rest := dropLeadingWS (cs.dropWhile (fun c => !pyIsSpace c))
    match rest with
    | [] => [String.mk tok]
    | _ => [String.mk tok, String.mk rest]

/-- Python `str.lower()` restricted to ASCII letters. -/
def pyLower (s : String) : String :=
  String.mk (s.data.map (fun c =>
    if 'A' ≤ c && c ≤ 'Z' then Char.ofNat (c.toNat + 32) else c))

/-- Python `str.upper()` restricted to ASCII letters. -/
def pyUpper (s : String) : String :=
  String.mk (s.data.map (fun c =>
    if 'a' ≤ c && c ≤ 'z' then Char.ofNat (c.toNat - 32) else c))

/-- A single-quote character, used to reproduce quoted names in the Python
error strings. -/
def pySQ : String := String.mk [Char.ofNat 39]

/-- The always-true placeholder condition substituted for an empty filter
set (src/autotask_mcp.py line 434 and siblings). -/
def exist_id_filter : FilterItem := FilterItem.fieldOp "exist" "id"

/-- The filter-wrapping logic shared by the search tools
(src/autotask_mcp.py lines 428-434, 843-849, 937-943):
non-empty set of size 1 passes through, size 2 or more is wrapped in a
single AND group, empty set becomes the placeholder condition. -/
def search_filter_wrap (filters : List FilterItem) : List FilterItem :=
  if !filters.isEmpty then
    (if filters.length == 1 then filters else [FilterItem.group "and" filters])
  else [exist_id_filter]

/-- The filter-wrapping expression used by the lookup helpers
(src/autotask_mcp.py lines 196 and 244):
`filters if len(filters) == 1 else [another AND group]`. -/
def lookup_filter_wrap (filters : List FilterItem) : List FilterItem :=
  if filters.length == 1 then filters else [FilterItem.group "and" filters]

/-- Output format selector (ResponseFormat enum in src/autotask_mcp.py). -/
inductive ResponseFormat where
  | markdown
  | json

/-- Parameters of autotask_search_tickets (SearchTicketsInput). -/
structure SearchTicketsInput where
  company_id : Option Int
  status : Option Int
  assigned_resource_id : Option Int
  queue_id : Option Int
  limit : Int
  response_format : ResponseFormat

/-- Filter-condition assembly of autotask_search_tickets
(src/autotask_mcp.py lines 414-422). -/
def autotask_search_tickets_filters (p : SearchTicketsInput) : List FilterItem :=
  let fs : List FilterItem := []
  let fs := if pyTruthyInt p.company_id then
    fs ++ [FilterItem.cond "companyID" "eq" (Value.i (p.company_id.getD 0))] else fs
  let fs := if p.status.isSome then
    fs ++ [FilterItem.cond "status" "eq" (Value.i (p.status.getD 0))] else fs
  let fs := if pyTruthyInt p.assigned_resource_id then
    fs ++ [FilterItem.cond "assignedResourceID" "eq" (Value.i (p.assigned_resource_id.getD 0))] else fs
  let fs := if pyTruthyInt p.queue_id then
    fs ++ [FilterItem.cond "queueID" "eq" (Value.i (p.queue_id.getD 0))] else fs
  fs

/-- Query body built by autotask_search_tickets (src/autotask_mcp.py 424-434). -/
def autotask_search_tickets_query_body (p : SearchTicketsInput) : QueryBody :=
  { maxRecords := p.limit
    filter := search_filter_wrap (autotask_search_tickets_filters p) }

/-- Parameters of autotask_search_companies (SearchCompaniesInput). -/
structure SearchCompaniesInput where
  company_name : Option String
  limit : Int

/-- The (at most one) filter condition supplied to autotask_search_companies. -/
def autotask_search_companies_conds (p : SearchCompaniesInput) : List FilterItem :=
  if pyTruthyStr p.company_name then
    [FilterItem.cond "companyName" "contains" (Value.s (p.company_name.getD ""))]
  else []

/-- Query body built by autotask_search_companies (src/autotask_mcp.py 705-712). -/
def autotask_search_companies_query_body (p : SearchCompaniesInput) : QueryBody :=
  { maxRecords := p.limit
    filter :=
      if pyTruthyStr p.company_name then
        [FilterItem.cond "companyName" "contains" (Value.s (p.company_name.getD ""))]
      else [exist_id_filter] }

/-- Parameters of autotask_search_contacts (SearchContactsInput). -/
structure SearchContactsInput where
  company_id : Option Int
  email : Option String
  first_name : Option String
  last_name : Option String
  limit : Int

/-- Filter-condition assembly of autotask_search_contacts
(src/autotask_mcp.py lines 829-837). -/
def autotask_search_contacts_filters (p : SearchContactsInput) : List FilterItem :=
  let fs : List FilterItem := []
  let fs := if pyTruthyInt p.company_id then
    fs ++ [FilterItem.cond "companyID" "eq" (Value.i (p.company_id.getD 0))] else fs
  let fs := if pyTruthyStr p.email then
    fs ++ [FilterItem.cond "emailAddress" "contains" (Value.s (p.email.getD ""))] else fs
  let fs := if pyTruthyStr p.first_name then
    fs ++ [FilterItem.cond "firstName" "contains" (Value.s (p.first_name.getD ""))] else fs
  let fs := if pyTruthyStr p.last_name then
    fs ++ [FilterItem.cond "lastName" "contains" (Value.s (p.last_name.getD ""))] else fs
  fs

/-- Query body built by autotask_search_contacts (src/autotask_mcp.py 839-849). -/
def autotask_search_contacts_query_body (p : SearchContactsInput) : QueryBody :=
  { maxRecords := p.limit
    filter := search_filter_wrap (autotask_search_contacts_filters p) }

/-- Parameters of autotask_search_resources (SearchResourcesInput). -/
structure SearchResourcesInput where
  email : Option String
  first_name : Option String
  last_name : Option String
  user_name : Option String
  active_only : Bool
  limit : Int

/-- Filter-condition assembly of autotask_search_resources
(src/autotask_mcp.py lines 920-931). -/
def autotask_search_resources_filters (p : SearchResourcesInput) : List FilterItem :=
  let fs : List FilterItem := []
  let fs := if pyTruthyStr p.email then
    fs ++ [FilterItem.cond "email" "eq" (Value.s (p.email.getD ""))] else fs
  let fs := if pyTruthyStr p.first_name then
    fs ++ [FilterItem.cond "firstName" "contains" (Value.s (p.first_name.getD ""))] else fs
  let fs := if pyTruthyStr p.last_name then
    fs ++ [FilterItem.cond "lastName" "contains" (Value.s (p.last_name.getD ""))] else fs
  let fs := if pyTruthyStr p.user_name then
    fs ++ [FilterItem.cond "userName" "contains" (Value.s (p.user_name.getD ""))] else fs
  let fs := if p.active_only then
    fs ++ [FilterItem.cond "active" "eq" (Value.b true)] else fs
  fs

/-- Query body built by autotask_search_resources (src/autotask_mcp.py 933-943). -/
def autotask_search_resources_query_body (p : SearchResourcesInput) : QueryBody :=
  { maxRecords := p.limit
    filter := search_filter_wrap (autotask_search_resources_filters p) }

/-- The single filter condition used by the company lookup
(src/autotask_mcp.py lines 147-150). -/
def lookup_company_filters (company_name : String) : List FilterItem :=
  [FilterItem.cond "companyName" "contains" (Value.s company_name)]

/-- Query body of the company lookup (src/autotask_mcp.py 147-150). -/
def lookup_company_query_body (company_name : String) : QueryBody :=
  { maxRecords := 5, filter := lookup_company_filters company_name }

/-- The name-splitting branch shared by the resource lookup
(src/autotask_mcp.py lines 177-190) and the contact lookup (lines 222-234):
`name.strip().split(None, 1)` giving two parts yields a firstName/lastName
contains pair; otherwise an OR group over the ORIGINAL (unstripped) name. -/
def name_split_filters (name : String) : List FilterItem :=
  match pySplitN1 (pyStrip name) with
  | [a, b] =>
    [FilterItem.cond "firstName" "contains" (Value.s a),
     FilterItem.cond "lastName" "contains" (Value.s b)]
  | _ =>
    [FilterItem.group "or"
       [FilterItem.cond "firstName" "contains" (Value.s name),
        FilterItem.cond "lastName" "contains" (Value.s name)]]

/-- Filter-condition assembly of the resource lookup
(src/autotask_mcp.py lines 172-192); `none` when neither a (truthy) email
nor a (truthy) name was given, in which case no query is issued. -/
def lookup_resource_filters (resource_name resource_email : Option String) :
    Option (List FilterItem) :=
  if pyTruthyStr resource_email then
    some [FilterItem.cond "email" "eq" (Value.s (resource_email.getD ""))]
  else if pyTruthyStr resource_name then
    some (name_split_filters (resource_name.getD ""))
  else none

/-- Query body of the resource lookup (src/autotask_mcp.py 194-197). -/
def lookup_resource_query_body (resource_name resource_email : Option String) :
    Option QueryBody :=
  (lookup_resource_filters resource_name resource_email).map
    (fun fs => { maxRecords := 5, filter := lookup_filter_wrap fs })

/-- Filter-condition assembly of the contact lookup
(src/autotask_mcp.py lines 218-240); the company condition is appended
independently of the email/name branch, and an empty set aborts the lookup. -/
def lookup_contact_raw_filters (contact_email contact_name : Option String)
    (company_id : Option Int) : List FilterItem :=
  let fs : List FilterItem :=
    if pyTruthyStr contact_email then
      [FilterItem.cond "emailAddress" "eq" (Value.s (contact_email.getD ""))]
    else if pyTruthyStr contact_name then
      name_split_filters (contact_name.getD "")
    else []
  if pyTruthyInt company_id then
    fs ++ [FilterItem.cond "companyID" "eq" (Value.i (company_id.getD 0))] else fs

/-- The contact lookup aborts (returns `none` with no query) when its
condition set came out empty (src/autotask_mcp.py lines 239-240). -/
def lookup_contact_filters (contact_email contact_name : Option String)
    (company_id : Option Int) : Option (List FilterItem) :=
  let fs := lookup_contact_raw_filters contact_email contact_name company_id
  if fs.isEmpty then none else some fs

/-- Query body of the contact lookup (src/autotask_mcp.py 242-245). -/
def lookup_contact_query_body (contact_email contact_name : Option String)
    (company_id : Option Int) : Option QueryBody :=
  (lookup_contact_filters contact_email contact_name company_id).map
    (fun fs => { maxRecords := 5, filter := lookup_filter_wrap fs })

/-- The 0 / 1 / 2-or-more shape the spec requires of an assembled filter:
empty set becomes the placeholder, a singleton passes through unwrapped,
two or more conditions become one AND group. -/
def filterTrichotomy (conds filt : List FilterItem) : Prop :=
  (conds = [] → filt = [exist_id_filter]) ∧
  (∀ c, conds = [c] → filt = [c]) ∧
  (2 ≤ conds.length → filt = [FilterItem.group "and" conds])

theorem search_wrap_trichotomy (conds : List FilterItem) :
    filterTrichotomy conds (search_filter_wrap conds) := by
  refine ⟨?_, ?_, ?_⟩
  · intro h; subst h; rfl
  · intro c h; subst h; rfl
  · intro h
    cases conds with
    | nil => simp at h
    | cons a t =>
      cases t with
      | nil => simp at h
      | cons b t2 => rfl

theorem lookup_wrap_trichotomy (conds : List FilterItem) (hne : conds ≠ []) :
    filterTrichotomy conds (lookup_filter_wrap conds) := by
  refine ⟨fun h => absurd h hne, ?_, ?_⟩
  · intro c h; subst h; rfl
  · intro h
    cases conds with
    | nil => simp at h
    | cons a t =>
      cases t with
      | nil => simp at h
      | cons b t2 => rfl

theorem name_split_filters_ne_nil (name : String) :
    name_split_filters name ≠ [] := by
  unfold name_split_filters
  split <;> simp

theorem lookup_resource_filters_ne_nil (rn re : Option String)
    (conds : List FilterItem) (h : lookup_resource_filters rn re = some conds) :
    conds ≠ [] := by
  unfold lookup_resource_filters at h
  split at h
  · cases h; simp
  · split at h
    · cases h; exact name_split_filters_ne_nil _
    · cases h

theorem lookup_contact_filters_ne_nil (ce cn : Option String) (cid : Option Int)
    (conds : List FilterItem) (h : lookup_contact_filters ce cn cid = some conds) :
    conds ≠ [] := by
  unfold lookup_contact_filters at h
  by_cases hE : (lookup_contact_raw_filters ce cn cid).isEmpty
  · simp [hE] at h
  · simp only [hE, Bool.false_eq_true, if_false, Option.some.injEq] at h
    subst h
    simpa using hE

/-- Claim C1: for every set of filter conditions assembled by a
query-building operation (search tickets / companies / contacts / resources
and the three entity-lookup helpers): an empty set yields the single
always-true placeholder condition (field `id` exists), a one-element set is
passed as the one-element filter array unwrapped, and a set of two or more
conditions becomes a one-element array holding a single AND group of all of
them.  For the lookup helpers a query body exists only when the set is
non-empty, and then its filter has the required shape. -/
theorem autotask_query_builder_filter_trichotomy :
    (∀ p : SearchTicketsInput,
       filterTrichotomy (autotask_search_tickets_filters p)
         (autotask_search_tickets_query_body p).filter) ∧
    (∀ p : SearchCompaniesInput,
       filterTrichotomy (autotask_search_companies_conds p)
         (autotask_search_companies_query_body p).filter) ∧
    (∀ p : SearchContactsInput,
       filterTrichotomy (autotask_search_contacts_filters p)
         (autotask_search_contacts_query_body p).filter) ∧
    (∀ p : SearchResourcesInput,
       filterTrichotomy (autotask_search_resources_filters p)
         (autotask_search_resources_query_body p).filter) ∧
    (∀ name : String,
       filterTrichotomy (lookup_company_filters name)
         (lookup_company_query_body name).filter) ∧
    (∀ rn re conds qb, lookup_resource_filters rn re = some conds →
       lookup_resource_query_body rn re = some qb →
       filterTrichotomy conds qb.filter) ∧
    (∀ ce cn cid conds qb, lookup_contact_filters ce cn cid = some conds →
       lookup_contact_query_body ce cn cid = some qb →
       filterTrichotomy conds qb.filter) := by
  refine ⟨fun p => search_wrap_trichotomy _, ?_, fun p => search_wrap_trichotomy _,
          fun p => search_wrap_trichotomy _, ?_, ?_, ?_⟩
  · intro p
    by_cases h : pyTruthyStr p.company_name <;>
      simp [autotask_search_companies_conds, autotask_search_companies_query_body,
            h, filterTrichotomy]
  · intro name
    exact ⟨by simp [lookup_company_filters], fun c h => h, by simp [lookup_company_filters]⟩
  · intro rn re conds qb h1 h2
    rw [lookup_resource_query_body, h1] at h2
    simp only [Option.map_some', Option.some.injEq] at h2
    subst h2
    exact lookup_wrap_trichotomy conds (lookup_resource_filters_ne_nil rn re conds h1)
  · intro ce cn cid conds qb h1 h2
    rw [lookup_contact_query_body, h1] at h2
    simp only [Option.map_some', Option.some.injEq] at h2
    subst h2
    exact lookup_wrap_trichotomy conds (lookup_contact_filters_ne_nil ce cn cid conds h1)

/-- Concrete search input exercising the two-condition case of claim C1. -/
def c1_two_cond_input : SearchTicketsInput :=
  { company_id := some 7, status := some 1, assigned_resource_id := none,
    queue_id := none, limit := 20, response_format := ResponseFormat.markdown }

/-- Concrete search input exercising the zero-condition case of claim C1. -/
def c1_zero_cond_input : SearchCompaniesInput :=
  { company_name := none, limit := 20 }

/-- Witness for claim C1: at a concrete two-condition ticket search the
filter is one AND group, and at a concrete zero-condition company search it
is the placeholder condition. -/
theorem autotask_query_builder_filter_trichotomy_witness :
    (autotask_search_tickets_query_body c1_two_cond_input).filter
      = [FilterItem.group "and" (autotask_search_tickets_filters c1_two_cond_input)] ∧
    (autotask_search_companies_query_body c1_zero_cond_input).filter
      = [exist_id_filter] :=
  ⟨(autotask_query_builder_filter_trichotomy.1 c1_two_cond_input).2.2 (by decide),
   (autotask_query_builder_filter_trichotomy.2.1 c1_zero_cond_input).1 rfl⟩

/-- One record of the list returned by the Companies/query call inside the
company lookup; both fields are read with `dict.get` and may be absent
(src/autotask_mcp.py lines 159-164). -/
structure CompanyItem where
  companyName : Option String
  id : Option Int

/-- Whether a returned record matches the queried name exactly,
case-insensitively (src/autotask_mcp.py line 160). -/
def company_name_matches (query : String) (c : CompanyItem) : Prop :=
  pyLower (c.companyName.getD "") = pyLower query

instance (query : String) (c : CompanyItem) :
    Decidable (company_name_matches query c) := by
  unfold company_name_matches
  infer_instance

/-- The exact-match scan of the company lookup (the for-loop at
src/autotask_mcp.py lines 159-161): first record whose lowered name equals
the lowered query. -/
def findExactCompany (low : String) : List CompanyItem → Option CompanyItem
  | [] => none
  | c :: cs =>
    if pyLower (c.companyName.getD "") == low then some c
    else findExactCompany low cs

/-- The selection policy of the company lookup applied to the records the
query returned (src/autotask_mcp.py lines 153-164): empty list gives none;
otherwise the id of the first exact case-insensitive match, or failing
that the id of the first record. -/
def lookup_company_pick (company_name : String) (companies : List CompanyItem) :
    Option Int :=
  match companies with
  | [] => none
  | c0 :: _ =>
    match findExactCompany (pyLower company_name) companies with
    | some c => c.id
    | none => c0.id

theorem findExactCompany_spec (low : String) (l : List CompanyItem) (c : CompanyItem)
    (h : findExactCompany low l = some c) :
    c ∈ l ∧ pyLower (c.companyName.getD "") = low := by
  induction l with
  | nil => simp [findExactCompany] at h
  | cons a t ih =>
    unfold findExactCompany at h
    by_cases ha : pyLower (a.companyName.getD "") == low
    · rw [if_pos ha] at h
      cases h
      exact ⟨List.mem_cons_self _ _, by simpa using ha⟩
    · rw [if_neg ha] at h
      obtain ⟨hm, hq⟩ := ih h
      exact ⟨List.mem_cons_of_mem a hm, hq⟩

theorem findExactCompany_isSome (low : String) (l : List CompanyItem)
    (h : ∃ c ∈ l, pyLower (c.companyName.getD "") = low) :
    (findExactCompany low l).isSome := by
  induction l with
  | nil => simp at h
  | cons a t ih =>
    unfold findExactCompany
    by_cases ha : pyLower (a.companyName.getD "") == low
    · rw [if_pos ha]; rfl
    · rw [if_neg ha]
      apply ih
      obtain ⟨c, hm, hq⟩ := h
      rcases List.mem_cons.mp hm with h0 | h0
      · exact absurd (by simpa [h0] using hq) (by simpa using ha)
      · exact ⟨c, h0, hq⟩

theorem findExactCompany_eq_none (low : String) (l : List CompanyItem)
    (h : ∀ c ∈ l, pyLower (c.companyName.getD "") ≠ low) :
    findExactCompany low l = none := by
  induction l with
  | nil => rfl
  | cons a t ih =>
    unfold findExactCompany
    rw [if_neg (by simpa using h a (List.mem_cons_self a t))]
    exact ih (fun c hc => h c (List.mem_cons_of_mem a hc))

/-- Claim C3: on a non-empty query result, if some record's companyName
equals the queried name case-insensitively the lookup returns that record's
id (even when it is not first in the list); otherwise it returns the first
record's id; on an empty result it returns none. -/
theorem lookup_company_exact_match_policy (name : String)
    (companies : List CompanyItem) :
    (companies = [] → lookup_company_pick name companies = none) ∧
    ((∃ c ∈ companies, company_name_matches name c) →
       ∃ c ∈ companies, company_name_matches name c ∧
         lookup_company_pick name companies = c.id) ∧
    (∀ c0 cs, companies = c0 :: cs →
       (∀ c ∈ companies, ¬ company_name_matches name c) →
       lookup_company_pick name companies = c0.id) := by
  refine ⟨?_, ?_, ?_⟩
  · intro h; subst h; rfl
  · intro hex
    have hne : companies ≠ [] := by
      rintro rfl
      simp at hex
    obtain ⟨c0, cs, rfl⟩ := List.exists_cons_of_ne_nil hne
    have hsome := findExactCompany_isSome (pyLower name) (c0 :: cs)
      (by simpa [company_name_matches] using hex)
    obtain ⟨c, hc⟩ := Option.isSome_iff_exists.mp hsome
    obtain ⟨hm, hq⟩ := findExactCompany_spec (pyLower name) (c0 :: cs) c hc
    refine ⟨c, hm, hq, ?_⟩
    simp only [lookup_company_pick, hc]
  · intro c0 cs hcs hnone
    subst hcs
    have h := findExactCompany_eq_none (pyLower name) (c0 :: cs)
      (fun c hc => hnone c hc)
    simp only [lookup_company_pick, h]

/-- The two-record result list from the spec example for claim C3. -/
def c3_example_companies : List CompanyItem :=
  [{ companyName := some "Acme Corp", id := some 1 },
   { companyName := some "Acme", id := some 2 }]

/-- Witness for claim C3: with results Acme Corp (id 1) then Acme (id 2)
and query Acme, the lookup returns the exact match id 2 although it is not
first. -/
theorem lookup_company_exact_match_policy_witness :
    (∃ c ∈ c3_example_companies, company_name_matches "Acme" c ∧
       lookup_company_pick "Acme" c3_example_companies = c.id) ∧
    lookup_company_pick "Acme" c3_example_companies = some 2 :=
  ⟨((lookup_company_exact_match_policy "Acme" c3_example_companies).2.1
      ⟨{ companyName := some "Acme", id := some 2 },
       List.mem_cons_of_mem _ (List.mem_cons_self _ _), by decide⟩),
   rfl⟩

/-- Counterexample to claim C4 as stated: for the name consisting of the
single token John followed by a trailing space, the stripped name splits
into the single token John, yet the OR group built by the resource lookup
uses the ORIGINAL string (with the trailing space) as the contains value,
not the token. -/
theorem lookup_resource_single_token_value_cex :
    pySplitN1 (pyStrip "John ") = ["John"] ∧
    lookup_resource_filters (some "John ") none =
      some [FilterItem.group "or"
              [FilterItem.cond "firstName" "contains" (Value.s "John "),
               FilterItem.cond "lastName" "contains" (Value.s "John ")]] ∧
    "John " ≠ "John" :=
  ⟨rfl, rfl, by decide⟩

/-- Claim C4 (amended): for a resource lookup by (truthy) name with no
email, a name whose strip-and-split yields two parts (first, rest) produces
the two contains conditions on firstName/lastName wrapped in a single AND
group; otherwise the filter is the one-element array holding an OR group of
firstName/lastName contains conditions whose value is the ORIGINAL name
string as passed (equal to the single token exactly when the name has no
surrounding whitespace). -/
theorem lookup_resource_name_split_filters (name : String) (hne : name ≠ "") :
    (∀ a b, pySplitN1 (pyStrip name) = [a, b] →
       lookup_resource_filters (some name) none =
         some [FilterItem.cond "firstName" "contains" (Value.s a),
               FilterItem.cond "lastName" "contains" (Value.s b)] ∧
       lookup_resource_query_body (some name) none =
         some { maxRecords := 5,
                filter := [FilterItem.group "and"
                  [FilterItem.cond "firstName" "contains" (Value.s a),
                   FilterItem.cond "lastName" "contains" (Value.s b)]] }) ∧
    ((pySplitN1 (pyStrip name)).length ≠ 2 →
       lookup_resource_filters (some name) none =
         some [FilterItem.group "or"
                 [FilterItem.cond "firstName" "contains" (Value.s name),
                  FilterItem.cond "lastName" "contains" (Value.s name)]] ∧
       lookup_resource_query_body (some name) none =
         some { maxRecords := 5,
                filter := [FilterItem.group "or"
                  [FilterItem.cond "firstName" "contains" (Value.s name),
                   FilterItem.cond "lastName" "contains" (Value.s name)]] }) := by
  have hsf : lookup_resource_filters (some name) none =
      some (name_split_filters name) := by
    simp [lookup_resource_filters, pyTruthyStr, hne]
  constructor
  · intro a b hab
    have hn : name_split_filters name =
        [FilterItem.cond "firstName" "contains" (Value.s a),
         FilterItem.cond "lastName" "contains" (Value.s b)] := by
      unfold name_split_filters
      rw [hab]
    refine ⟨by rw [hsf, hn], ?_⟩
    rw [lookup_resource_query_body, hsf, hn]
    rfl
  · intro hlen
    have hn : name_split_filters name =
        [FilterItem.group "or"
           [FilterItem.cond "firstName" "contains" (Value.s name),
            FilterItem.cond "lastName" "contains" (Value.s name)]] := by
      unfold name_split_filters
      split
      · next a b heq => simp [heq] at hlen
      · rfl
    refine ⟨by rw [hsf, hn], ?_⟩
    rw [lookup_resource_query_body, hsf, hn]
    rfl

/-- Witness for claim C4 (amended): the two-part name John Smith yields the
AND pair, the single-token name John yields the OR group on that token. -/
theorem lookup_resource_name_split_filters_witness :
    (lookup_resource_query_body (some "John Smith") none =
       some { maxRecords := 5, filter := [FilterItem.group "and"
         [FilterItem.cond "firstName" "contains" (Value.s "John"),
          FilterItem.cond "lastName" "contains" (Value.s "Smith")]] }) ∧
    (lookup_resource_query_body (some "John") none =
       some { maxRecords := 5, filter := [FilterItem.group "or"
         [FilterItem.cond "firstName" "contains" (Value.s "John"),
          FilterItem.cond "lastName" "contains" (Value.s "John")]] }) :=
  ⟨((lookup_resource_name_split_filters "John Smith" (by decide)).1 "John" "Smith" rfl).2,
   ((lookup_resource_name_split_filters "John" (by decide)).2 (by decide)).2⟩

/-- Parameters of autotask_update_ticket (UpdateTicketInput,
src/autotask_mcp.py lines 595-605). -/
structure UpdateTicketInput where
  ticket_id : Int
  title : Option String
  description : Option String
  status : Option Int
  priority : Option Int
  assigned_resource_id : Option Int
  queue_id : Option Int

/-- Conditionally extend a request body with one field (the repeated
`if cond: data[key] = value` pattern of the tool bodies). -/
def addIf (c : Bool) (kv : String × Value) (d : List (String × Value)) :
    List (String × Value) :=
  if c then d ++ [kv] else d

/-- The PATCH body assembled by autotask_update_ticket
(src/autotask_mcp.py lines 638-651): starts from the id, then each
supplied field in source order. -/
def autotask_update_ticket_data (p : UpdateTicketInput) : List (String × Value) :=
  addIf (pyTruthyInt p.queue_id) ("queueID", Value.i (p.queue_id.getD 0))
    (addIf (pyTruthyInt p.assigned_resource_id)
      ("assignedResourceID", Value.i (p.assigned_resource_id.getD 0))
      (addIf p.priority.isSome ("priority", Value.i (p.priority.getD 0))
        (addIf p.status.isSome ("status", Value.i (p.status.getD 0))
          (addIf (pyTruthyStr p.description) ("description", Value.s (p.description.getD ""))
            (addIf (pyTruthyStr p.title) ("title", Value.s (p.title.getD ""))
              [("id", Value.i p.ticket_id)])))))

/-- The outcome of autotask_update_ticket up to its network call
(src/autotask_mcp.py lines 653-656): error with no request when only the
id is present, otherwise exactly one PATCH to Tickets. -/
def autotask_update_ticket_call (p : UpdateTicketInput) : Except String ApiRequest :=
  if (autotask_update_ticket_data p).length == 1 then
    Except.error "Error: No fields specified to update"
  else
    Except.ok (ApiRequest.patch "Tickets" (some (autotask_update_ticket_data p)))

/-- Claim C5: an update-ticket call supplying no mutable field beyond the
ticket id returns the no-fields-to-update error and issues no PATCH
request. -/
theorem update_ticket_no_fields_error (p : UpdateTicketInput)
    (ht : p.title = none) (hd : p.description = none) (hs : p.status = none)
    (hp : p.priority = none) (ha : p.assigned_resource_id = none)
    (hq : p.queue_id = none) :
    autotask_update_ticket_call p =
      Except.error "Error: No fields specified to update" := by
  simp [autotask_update_ticket_call, autotask_update_ticket_data, addIf,
        ht, hd, hs, hp, ha, hq, pyTruthyStr, pyTruthyInt]

/-- Witness for claim C5: the concrete id-only input yields the error and
no PATCH. -/
theorem update_ticket_no_fields_error_witness :
    autotask_update_ticket_call
      { ticket_id := 42, title := none, description := none, status := none,
        priority := none, assigned_resource_id := none, queue_id := none } =
      Except.error "Error: No fields specified to update" :=
  update_ticket_no_fields_error _ rfl rfl rfl rfl rfl rfl

/-- The process environment as read at module load
(src/autotask_mcp.py lines 27-30): each variable may be absent. -/
structure Env where
  username : Option String
  secret : Option String
  integration_code : Option String
  api_url : Option String

/-- `os.getenv("AUTOTASK_USERNAME", "")`. -/
def autotask_username (e : Env) : String := e.username.getD ""

/-- `os.getenv("AUTOTASK_SECRET", "")`. -/
def autotask_secret (e : Env) : String := e.secret.getD ""

/-- `os.getenv("AUTOTASK_INTEGRATION_CODE", "")`. -/
def autotask_integration_code (e : Env) : String := e.integration_code.getD ""

/-- `os.getenv("AUTOTASK_API_URL", default regional endpoint)`
(src/autotask_mcp.py line 30): absence falls back to a built-in URL. -/
def autotask_api_url (e : Env) : String :=
  e.api_url.getD "https://webservices.autotask.net/ATServicesRest/v1.0"

/-- `_validate_config` (src/autotask_mcp.py lines 72-80): checks the three
credential variables only. -/
def validate_config (e : Env) : Bool × String :=
  if autotask_username e == "" then
    (false, "AUTOTASK_USERNAME environment variable not set")
  else if autotask_secret e == "" then
    (false, "AUTOTASK_SECRET environment variable not set")
  else if autotask_integration_code e == "" then
    (false, "AUTOTASK_INTEGRATION_CODE environment variable not set")
  else (true, "")

/-- `_make_api_request` (src/autotask_mcp.py lines 112-139): validates the
configuration first (raising, i.e. `Except.error`, before any request),
then dispatches on the upper-cased verb; an unrecognised verb raises with
no request sent. -/
def make_api_request (e : Env) (method endpoint : String)
    (data params : Option (List (String × Value))) : Except String ApiRequest :=
  let v := validate_config e
  if !v.1 then Except.error v.2
  else
    let url := autotask_api_url e ++ "/" ++ endpoint
    if pyUpper method == "GET" then Except.ok (ApiRequest.get url params)
    else if pyUpper method == "POST" then Except.ok (ApiRequest.post url data)
    else if pyUpper method == "PATCH" then Except.ok (ApiRequest.patch url data)
    else if pyUpper method == "DELETE" then Except.ok (ApiRequest.delete url)
    else Except.error ("Unsupported HTTP method: " ++ method)

/-- Counterexample to claim C6 as stated: with the three credential
variables set but the base-API-URL variable absent, configuration
validation succeeds and a request is issued against the default URL — the
absence of the fourth variable is not a configuration error. -/
theorem config_api_url_not_required_cex :
    validate_config
      { username := some "u", secret := some "s",
        integration_code := some "c", api_url := none } = (true, "") ∧
    make_api_request
      { username := some "u", secret := some "s",
        integration_code := some "c", api_url := none }
      "GET" "Tickets/1" none none =
      Except.ok (ApiRequest.get
        "https://webservices.autotask.net/ATServicesRest/v1.0/Tickets/1" none) :=
  ⟨rfl, rfl⟩

/-- Claim C6 (amended): only the three credential variables (username,
shared secret, integration code) are required; if any of the three is
absent or empty, every request path surfaces that configuration error
before any network call; the base API URL is never validated and its
absence merely selects the built-in default. -/
theorem config_three_vars_required (e : Env) (method endpoint : String)
    (data params : Option (List (String × Value))) :
    ((validate_config e).1 = false ↔
       (autotask_username e = "" ∨ autotask_secret e = "" ∨
        autotask_integration_code e = "")) ∧
    ((validate_config e).1 = false →
       make_api_request e method endpoint data params =
         Except.error (validate_config e).2) ∧
    (validate_config { e with api_url := none } = validate_config e) := by
  refine ⟨?_, ?_, ?_⟩
  · unfold validate_config
    by_cases h1 : autotask_username e = "" <;>
      by_cases h2 : autotask_secret e = "" <;>
        by_cases h3 : autotask_integration_code e = "" <;>
          simp [h1, h2, h3]
  · intro h
    unfold make_api_request
    simp [h]
  · unfold validate_config autotask_username autotask_secret autotask_integration_code
    rfl

/-- Witness for claim C6 (amended): with the secret variable absent the
call errors out before any request. -/
theorem config_three_vars_required_witness :
    make_api_request
      { username := some "u", secret := none,
        integration_code := some "c", api_url := some "https://x" }
      "GET" "Tickets/1" none none =
      Except.error "AUTOTASK_SECRET environment variable not set" :=
  (config_three_vars_required
      { username := some "u", secret := none,
        integration_code := some "c", api_url := some "https://x" }
      "GET" "Tickets/1" none none).2.1 rfl

/-- A well-configured environment used for the HTTP-verb statements. -/
def c7_env : Env :=
  { username := some "u", secret := some "s",
    integration_code := some "c", api_url := some "https://api" }

/-- Counterexample to claim C7 as stated: the verb PUT, although in the
claimed supported set, is rejected as an unsupported method and no request
is issued. -/
theorem make_api_request_put_rejected_cex :
    make_api_request c7_env "PUT" "Tickets" none none =
      Except.error "Unsupported HTTP method: PUT" :=
  rfl

/-- Claim C7 (amended): with a valid configuration, the HTTP client
adapter accepts exactly the verbs whose upper-casing is GET, POST, PATCH
or DELETE — each issuing exactly one request of the corresponding kind —
and any other verb (PUT included) is a local validation error with no
request sent over the wire. -/
theorem make_api_request_verbs (e : Env) (m endpoint : String)
    (data params : Option (List (String × Value)))
    (hcfg : (validate_config e).1 = true) :
    (pyUpper m = "GET" → make_api_request e m endpoint data params =
       Except.ok (ApiRequest.get (autotask_api_url e ++ "/" ++ endpoint) params)) ∧
    (pyUpper m = "POST" → make_api_request e m endpoint data params =
       Except.ok (ApiRequest.post (autotask_api_url e ++ "/" ++ endpoint) data)) ∧
    (pyUpper m = "PATCH" → make_api_request e m endpoint data params =
       Except.ok (ApiRequest.patch (autotask_api_url e ++ "/" ++ endpoint) data)) ∧
    (pyUpper m = "DELETE" → make_api_request e m endpoint data params =
       Except.ok (ApiRequest.delete (autotask_api_url e ++ "/" ++ endpoint))) ∧
    (pyUpper m ≠ "GET" → pyUpper m ≠ "POST" → pyUpper m ≠ "PATCH" →
     pyUpper m ≠ "DELETE" →
       make_api_request e m endpoint data params =
         Except.error ("Unsupported HTTP method: " ++ m)) := by
  refine ⟨?_, ?_, ?_, ?_, ?_⟩ <;> intro h
  · simp [make_api_request, hcfg, h]
  · simp [make_api_request, hcfg, h]
  · simp [make_api_request, hcfg, h]
  · simp [make_api_request, hcfg, h]
  · intro h2 h3 h4
    simp [make_api_request, hcfg, h, h2, h3, h4]

/-- Witness for claim C7 (amended): a lower-case verb get issues the GET
request, and the verb HEAD is rejected locally. -/
theorem make_api_request_verbs_witness :
    make_api_request c7_env "get" "Tickets/9" none none =
      Except.ok (ApiRequest.get "https://api/Tickets/9" none) ∧
    make_api_request c7_env "HEAD" "Tickets/9" none none =
      Except.error "Unsupported HTTP method: HEAD" :=
  ⟨(make_api_request_verbs c7_env "get" "Tickets/9" none none rfl).1 rfl,
   (make_api_request_verbs c7_env "HEAD" "Tickets/9" none none rfl).2.2.2.2
     (by decide) (by decide) (by decide) (by decide)⟩

/-- An upstream ticket record (opaque field mapping). -/
def TicketRec : Type := List (String × Value)

/-- The parsed JSON of a query response; `items` may be absent
(`result.get("items", [])`, src/autotask_mcp.py line 438). -/
structure QueryResp where
  items : Option (List TicketRec)

/-- `tickets = result.get("items", [])` (src/autotask_mcp.py line 438). -/
def autotask_search_tickets_items (resp : QueryResp) : List TicketRec :=
  resp.items.getD []

/-- The JSON-mode output of autotask_search_tickets
(src/autotask_mcp.py lines 440-445): total count, the ticket list and the
echoed limit.  The markdown mode iterates over the same ticket list. -/
structure SearchTicketsJson where
  total : Nat
  tickets : List TicketRec
  limit : Int

/-- Output assembly of autotask_search_tickets from the upstream response
(src/autotask_mcp.py lines 438-445): every returned item is included. -/
def autotask_search_tickets_json (p : SearchTicketsInput) (resp : QueryResp) :
    SearchTicketsJson :=
  { total := (autotask_search_tickets_items resp).length
    tickets := autotask_search_tickets_items resp
    limit := p.limit }

/-- A concrete search asking for at most one ticket. -/
def c8_limit_one_input : SearchTicketsInput :=
  { company_id := none, status := none, assigned_resource_id := none,
    queue_id := none, limit := 1, response_format := ResponseFormat.json }

/-- A two-item upstream response. -/
def c8_two_item_resp : QueryResp :=
  { items := some [[("id", Value.i 100)], [("id", Value.i 101)]] }

/-- Counterexample to claim C8 as stated: with limit 1 and an upstream
response carrying two items, the formatted output contains two tickets —
the operation performs no client-side truncation. -/
theorem search_tickets_no_truncation_cex :
    c8_limit_one_input.limit = 1 ∧
    ((autotask_search_tickets_json c8_limit_one_input c8_two_item_resp).tickets.length : Int)
      > c8_limit_one_input.limit ∧
    (autotask_search_tickets_json c8_limit_one_input c8_two_item_resp).total = 2 :=
  ⟨rfl, by decide, rfl⟩

/-- Claim C8 (amended): the caller-supplied limit is forwarded upstream as
MaxRecords in the query body, and the output contains exactly the items the
upstream returned (count equal to the upstream item count), with no local
truncation. -/
theorem search_tickets_output_matches_upstream (p : SearchTicketsInput)
    (resp : QueryResp) :
    (autotask_search_tickets_query_body p).maxRecords = p.limit ∧
    (autotask_search_tickets_json p resp).tickets =
      autotask_search_tickets_items resp ∧
    (autotask_search_tickets_json p resp).total =
      (autotask_search_tickets_items resp).length ∧
    (autotask_search_tickets_json p resp).limit = p.limit :=
  ⟨rfl, rfl, rfl, rfl⟩

/-- Outcome of one step of a combined operation. -/
inductive StepOutcome where
  | success
  | failure

/-- One report line per step, marked by outcome. -/
def step_line (label : String) : StepOutcome → String
  | StepOutcome.success => "Success: " ++ label
  | StepOutcome.failure => "Failed: " ++ label

/-- Whether a report line begins with the given marker (structural check
over the character list). -/
def line_has_marker (marker s : String) : Bool :=
  s.data.take marker.data.length == marker.data

/-- Recognise a failure report line. -/
def line_is_failure (s : String) : Bool := line_has_marker "Failed: " s

/-- Recognise a success report line. -/
def line_is_success (s : String) : Bool := line_has_marker "Success: " s

/-- Modelled from the spec: the combined update-status-plus-note operation
(spec 4.4 row "combined: update status + note") is not present in
src/autotask_mcp.py.  Following the spec text it performs the status PATCH
and then the note POST strictly in that order, proceeding to the POST
regardless of the PATCH outcome, and reports the outcome of each step
independently, one line per step. -/
def update_status_with_note (ticket_id new_status : Int) (note : String)
    (patch_outcome note_outcome : StepOutcome) :
    List ApiRequest × List String :=
  ([ApiRequest.patch "Tickets"
      (some [("id", Value.i ticket_id), ("status", Value.i new_status)]),
    ApiRequest.post "TicketNotes"
      (some [("ticketID", Value.i ticket_id), ("description", Value.s note)])],
   [step_line "status update" patch_outcome,
    step_line "add note" note_outcome])

/-- Claim C9: the combined status-plus-note operation issues the status
PATCH followed by the note POST in order, the POST being attempted whatever
the PATCH outcome; and when the PATCH fails while the POST succeeds the
report holds exactly one failure line and one success line. -/
theorem update_status_with_note_sequential (tid st : Int) (note : String)
    (po no : StepOutcome) :
    (update_status_with_note tid st note po no).1 =
      [ApiRequest.patch "Tickets"
         (some [("id", Value.i tid), ("status", Value.i st)]),
       ApiRequest.post "TicketNotes"
         (some [("ticketID", Value.i tid), ("description", Value.s note)])] ∧
    (po = StepOutcome.failure → no = StepOutcome.success →
       ((update_status_with_note tid st note po no).2.countP line_is_failure = 1 ∧
        (update_status_with_note tid st note po no).2.countP line_is_success = 1)) := by
  refine ⟨rfl, ?_⟩
  rintro rfl rfl
  show List.countP line_is_failure
      [step_line "status update" StepOutcome.failure,
       step_line "add note" StepOutcome.success] = 1 ∧
    List.countP line_is_success
      [step_line "status update" StepOutcome.failure,
       step_line "add note" StepOutcome.success] = 1
  decide

/-- Witness for claim C9: PATCH failed, POST succeeded — one failure line
and one success line. -/
theorem update_status_with_note_sequential_witness :
    (update_status_with_note 10 5 "Resolved"
        StepOutcome.failure StepOutcome.success).2.countP line_is_failure = 1 ∧
    (update_status_with_note 10 5 "Resolved"
        StepOutcome.failure StepOutcome.success).2.countP line_is_success = 1 :=
  (update_status_with_note_sequential 10 5 "Resolved"
      StepOutcome.failure StepOutcome.success).2 rfl rfl

/-- Parameters of autotask_create_time_entry (CreateTimeEntryInput,
src/autotask_mcp.py lines 1026-1043); hours are modelled as rationals. -/
structure CreateTimeEntryInput where
  ticket_id : Int
  resource_id : Option Int
  resource_name : Option String
  resource_email : Option String
  hours_worked : Rat
  date_worked : Option String
  summary_notes : Option String
  internal_notes : Option String
  hours_to_bill : Option Rat
  time_entry_type : Int
  offset_hours : Rat

/-- The pydantic field constraints of CreateTimeEntryInput
(src/autotask_mcp.py lines 1030-1041): `ticket_id > 0`, `resource_id > 0`
when given, `hours_worked > 0`, `hours_to_bill > 0` when given.  There is
NO upper bound on hours_worked. -/
def valid_create_time_entry_input (p : CreateTimeEntryInput) : Bool :=
  decide (0 < p.ticket_id) &&
  (match p.resource_id with
   | some r => decide (0 < r)
   | none => true) &&
  decide (0 < p.hours_worked) &&
  (match p.hours_to_bill with
   | some b => decide (0 < b)
   | none => true)

/-- `date_worked` defaulting to the current date when absent
(src/autotask_mcp.py lines 1093-1096); the current date is an argument. -/
def resolve_date_worked (p : CreateTimeEntryInput) (today : String) : String :=
  if pyTruthyStr p.date_worked then p.date_worked.getD "" else today

/-- `params.resource_email or params.resource_name` used in the
could-not-find message (src/autotask_mcp.py line 1086). -/
def create_time_entry_search_term (p : CreateTimeEntryInput) : String :=
  if pyTruthyStr p.resource_email then p.resource_email.getD ""
  else p.resource_name.getD ""

/-- The POST body assembled by autotask_create_time_entry
(src/autotask_mcp.py lines 1099-1118): the fixed fields, then the optional
notes, then hoursToBill defaulting to hours_worked. -/
def create_time_entry_data (p : CreateTimeEntryInput) (rid : Int) (dw : String) :
    List (String × Value) :=
  (addIf (pyTruthyStr p.internal_notes)
      ("internalNotes", Value.s (p.internal_notes.getD ""))
    (addIf (pyTruthyStr p.summary_notes)
        ("summaryNotes", Value.s (p.summary_notes.getD ""))
      [("ticketID", Value.i p.ticket_id), ("resourceID", Value.i rid),
       ("dateWorked", Value.s dw), ("hoursWorked", Value.q p.hours_worked),
       ("timeEntryType", Value.i p.time_entry_type),
       ("offsetHours", Value.q p.offset_hours)]))
  ++ [("hoursToBill", Value.q (match p.hours_to_bill with
        | some b => b
        | none => p.hours_worked))]

/-- The body of autotask_create_time_entry up to its network call
(src/autotask_mcp.py lines 1077-1120); `looked_up` is the result the
resource lookup would return when it is invoked. -/
def autotask_create_time_entry_request (p : CreateTimeEntryInput)
    (looked_up : Option Int) (today : String) : Except String ApiRequest :=
  if !pyTruthyInt p.resource_id &&
     (pyTruthyStr p.resource_name || pyTruthyStr p.resource_email) then
    if !pyTruthyInt looked_up then
      Except.error ("Error: Could not find resource " ++ pySQ ++
        create_time_entry_search_term p ++ pySQ)
    else
      Except.ok (ApiRequest.post "TimeEntries"
        (some (create_time_entry_data p (looked_up.getD 0)
          (resolve_date_worked p today))))
  else if !pyTruthyInt p.resource_id then
    Except.error
      "Error: Either resource_id, resource_name, or resource_email must be provided"
  else
    Except.ok (ApiRequest.post "TimeEntries"
      (some (create_time_entry_data p (p.resource_id.getD 0)
        (resolve_date_worked p today))))

/-- The tool layer validates CreateTimeEntryInput against its pydantic
constraints before the function body runs; an invalid input is a local
validation error with no network call. -/
def create_time_entry_call (p : CreateTimeEntryInput) (looked_up : Option Int)
    (today : String) : Except String ApiRequest :=
  if !valid_create_time_entry_input p then
    Except.error "Error: validation failed for CreateTimeEntryInput"
  else autotask_create_time_entry_request p looked_up today

/-- The rational 24.01 written as an explicit reduced fraction so that it
evaluates inside the kernel. -/
def rat_24_01 : Rat := ⟨2401, 100, by norm_num, by norm_num⟩

theorem rat_24_01_eq : rat_24_01 = 24.01 := by
  rw [rat_24_01, Rat.mk'_eq_divInt, Rat.divInt_eq_div]
  norm_num

/-- A create-time-entry input with hours_worked = 24.01. -/
def c2_high_hours_input : CreateTimeEntryInput :=
  { ticket_id := 101, resource_id := some 7, resource_name := none,
    resource_email := none, hours_worked := rat_24_01,
    date_worked := some "2025-01-01", summary_notes := none,
    internal_notes := none, hours_to_bill := none, time_entry_type := 1,
    offset_hours := 0 }

/-- Counterexample to claim C2 as stated: hours_worked = 24.01 passes the
local validation and the POST is issued — the code enforces no upper bound
of 24. -/
theorem create_time_entry_hours_upper_bound_cex :
    c2_high_hours_input.hours_worked = 24.01 ∧
    valid_create_time_entry_input c2_high_hours_input = true ∧
    create_time_entry_call c2_high_hours_input none "2025-01-01" =
      Except.ok (ApiRequest.post "TimeEntries"
        (some (create_time_entry_data c2_high_hours_input 7 "2025-01-01"))) :=
  ⟨rat_24_01_eq, rfl, rfl⟩

/-- Claim C2 (amended): hours_worked is validated locally before any
network call, but only against the lower bound: hours_worked = 0 (or any
non-positive value) is a validation error with no POST; hours_worked = 24
is accepted; hours_worked = 24.01 is ALSO accepted — every positive value
passes, there is no upper bound of 24. -/
theorem create_time_entry_hours_validation (p : CreateTimeEntryInput)
    (looked_up : Option Int) (today : String) :
    (p.hours_worked ≤ 0 →
       create_time_entry_call p looked_up today =
         Except.error "Error: validation failed for CreateTimeEntryInput") ∧
    (0 < p.ticket_id → (∀ r, p.resource_id = some r → 0 < r) →
     (∀ b, p.hours_to_bill = some b → 0 < b) → 0 < p.hours_worked →
       valid_create_time_entry_input p = true) ∧
    (∀ r, p.resource_id = some r → 0 < r → 0 < p.ticket_id →
     (∀ b, p.hours_to_bill = some b → 0 < b) → 0 < p.hours_worked →
       create_time_entry_call p looked_up today =
         Except.ok (ApiRequest.post "TimeEntries"
           (some (create_time_entry_data p r (resolve_date_worked p today))))) := by
  have hvalid : 0 < p.ticket_id → (∀ r, p.resource_id = some r → 0 < r) →
      (∀ b, p.hours_to_bill = some b → 0 < b) → 0 < p.hours_worked →
      valid_create_time_entry_input p = true := by
    intro h1 h2 h3 h4
    simp only [valid_create_time_entry_input, Bool.and_eq_true, decide_eq_true_eq]
    refine ⟨⟨⟨h1, ?_⟩, h4⟩, ?_⟩
    · cases hrid : p.resource_id with
      | none => rfl
      | some r => simpa using h2 r hrid
    · cases hbill : p.hours_to_bill with
      | none => rfl
      | some b => simpa using h3 b hbill
  refine ⟨?_, hvalid, ?_⟩
  · intro h
    have hc : ¬ (0 < p.hours_worked) := not_lt.mpr h
    simp [create_time_entry_call, valid_create_time_entry_input, hc]
  · intro r hrid hr h1 h3 h4
    have hv := hvalid h1 (fun r2 hr2 => by rw [hrid] at hr2; cases hr2; exact hr) h3 h4
    have hrt : pyTruthyInt (some r) = true := by
      simp only [pyTruthyInt, Bool.not_eq_eq_eq_not, Bool.not_true, beq_eq_false_iff_ne]
      exact Int.ne_of_gt hr
    simp [create_time_entry_call, hv, autotask_create_time_entry_request, hrid, hrt]

/-- A create-time-entry input with hours_worked = 24. -/
def c2_valid_24_input : CreateTimeEntryInput :=
  { ticket_id := 101, resource_id := some 7, resource_name := none,
    resource_email := none, hours_worked := 24,
    date_worked := some "2025-01-01", summary_notes := none,
    internal_notes := none, hours_to_bill := none, time_entry_type := 1,
    offset_hours := 0 }

/-- Witness for claim C2 (amended): hours_worked = 24 is accepted and the
POST is issued. -/
theorem create_time_entry_hours_validation_witness :
    create_time_entry_call c2_valid_24_input none "2025-01-01" =
      Except.ok (ApiRequest.post "TimeEntries"
        (some (create_time_entry_data c2_valid_24_input 7
          (resolve_date_worked c2_valid_24_input "2025-01-01")))) :=
  (create_time_entry_hours_validation c2_valid_24_input none "2025-01-01").2.2
    7 rfl (by decide) (by decide) (fun b hb => nomatch hb) (by decide)

/-- Parameters of autotask_create_ticket (CreateTicketInput,
src/autotask_mcp.py lines 459-487). -/
structure CreateTicketInput where
  title : String
  description : String
  company_id : Option Int
  company_name : Option String
  priority : Int
  status : Int
  queue_id : Option Int
  due_date_time : Option String
  contact_id : Option Int
  contact_email : Option String
  contact_name : Option String
  assigned_resource_id : Option Int
  assigned_resource_name : Option String
  assigned_resource_email : Option String
  issue_type : Option Int
  sub_issue_type : Option Int

/-- Results the three lookup helpers would return when invoked by
autotask_create_ticket. -/
structure LookupOracle where
  company : Option Int
  contact : Option Int
  resource : Option Int

/-- The fixed part of the ticket body (src/autotask_mcp.py lines 543-549). -/
def create_ticket_base_data (p : CreateTicketInput) (cid : Int) :
    List (String × Value) :=
  [("companyID", Value.i cid), ("title", Value.s p.title),
   ("description", Value.s p.description), ("priority", Value.i p.priority),
   ("status", Value.i p.status)]

/-- The contact branch of autotask_create_ticket (src/autotask_mcp.py
lines 551-561): explicit id wins; otherwise a lookup is attempted and its
result is added only when truthy — a miss leaves the body unchanged. -/
def create_ticket_contact_data (p : CreateTicketInput) (o : LookupOracle)
    (d : List (String × Value)) : List (String × Value) :=
  if pyTruthyInt p.contact_id then
    d ++ [("contactID", Value.i (p.contact_id.getD 0))]
  else if pyTruthyStr p.contact_email || pyTruthyStr p.contact_name then
    addIf (pyTruthyInt o.contact) ("contactID", Value.i (o.contact.getD 0)) d
  else d

/-- The assigned-resource branch of autotask_create_ticket
(src/autotask_mcp.py lines 563-572), same shape as the contact branch. -/
def create_ticket_resource_data (p : CreateTicketInput) (o : LookupOracle)
    (d : List (String × Value)) : List (String × Value) :=
  if pyTruthyInt p.assigned_resource_id then
    d ++ [("assignedResourceID", Value.i (p.assigned_resource_id.getD 0))]
  else if pyTruthyStr p.assigned_resource_name ||
          pyTruthyStr p.assigned_resource_email then
    addIf (pyTruthyInt o.resource)
      ("assignedResourceID", Value.i (o.resource.getD 0)) d
  else d

/-- The full POST body of autotask_create_ticket (src/autotask_mcp.py
lines 543-582): base fields, contact branch, resource branch, then the
optional trailing fields in source order. -/
def create_ticket_data (p : CreateTicketInput) (o : LookupOracle) (cid : Int) :
    List (String × Value) :=
  addIf (pyTruthyInt p.sub_issue_type)
      ("subIssueType", Value.i (p.sub_issue_type.getD 0))
    (addIf (pyTruthyInt p.issue_type) ("issueType", Value.i (p.issue_type.getD 0))
      (addIf (pyTruthyStr p.due_date_time)
          ("dueDateTime", Value.s (p.due_date_time.getD ""))
        (addIf (pyTruthyInt p.queue_id) ("queueID", Value.i (p.queue_id.getD 0))
          (create_ticket_resource_data p o
            (create_ticket_contact_data p o
              (create_ticket_base_data p cid))))))

/-- The company-resolution gate and POST of autotask_create_ticket
(src/autotask_mcp.py lines 531-584): a failed company-name resolution
aborts with an error and no POST; otherwise one POST to Tickets. -/
def autotask_create_ticket_run (p : CreateTicketInput) (o : LookupOracle) :
    Except String ApiRequest :=
  if !pyTruthyInt p.company_id && pyTruthyStr p.company_name then
    if !pyTruthyInt o.company then
      Except.error ("Error: Could not find company " ++ pySQ ++
        p.company_name.getD "" ++ pySQ)
    else
      Except.ok (ApiRequest.post "Tickets"
        (some (create_ticket_data p o (o.company.getD 0))))
  else if !pyTruthyInt p.company_id then
    Except.error "Error: Either company_id or company_name must be provided"
  else
    Except.ok (ApiRequest.post "Tickets"
      (some (create_ticket_data p o (p.company_id.getD 0))))

/-- Whether a request body carries a field of the given name. -/
def hasKey (k : String) (d : List (String × Value)) : Bool :=
  d.any (fun kv => kv.1 == k)

theorem hasKey_append (k : String) (a b : List (String × Value)) :
    hasKey k (a ++ b) = (hasKey k a || hasKey k b) := by
  simp [hasKey]

theorem hasKey_addIf (k : String) (c : Bool) (kv : String × Value)
    (d : List (String × Value)) (hkv : (kv.1 == k) = false)
    (hd : hasKey k d = false) : hasKey k (addIf c kv d) = false := by
  cases c
  · exact hd
  · show hasKey k (d ++ [kv]) = false
    rw [hasKey_append, hd]
    simp [hasKey, hkv]

theorem create_ticket_contact_data_of_miss (p : CreateTicketInput)
    (o : LookupOracle) (d : List (String × Value))
    (hc : p.contact_id = none) (ho : o.contact = none) :
    create_ticket_contact_data p o d = d := by
  simp [create_ticket_contact_data, hc, ho, pyTruthyInt, addIf]

theorem create_ticket_resource_data_of_miss (p : CreateTicketInput)
    (o : LookupOracle) (d : List (String × Value))
    (hr : p.assigned_resource_id = none) (ho : o.resource = none) :
    create_ticket_resource_data p o d = d := by
  simp [create_ticket_resource_data, hr, ho, pyTruthyInt, addIf]

theorem hasKey_contact_data (k : String) (p : CreateTicketInput)
    (o : LookupOracle) (d : List (String × Value))
    (hk : (("contactID" : String) == k) = false)
    (hd : hasKey k d = false) :
    hasKey k (create_ticket_contact_data p o d) = false := by
  unfold create_ticket_contact_data
  split
  · rw [hasKey_append, hd]
    simp [hasKey, hk]
  · split
    · exact hasKey_addIf k _ _ d hk hd
    · exact hd

theorem hasKey_resource_data (k : String) (p : CreateTicketInput)
    (o : LookupOracle) (d : List (String × Value))
    (hk : (("assignedResourceID" : String) == k) = false)
    (hd : hasKey k d = false) :
    hasKey k (create_ticket_resource_data p o d) = false := by
  unfold create_ticket_resource_data
  split
  · rw [hasKey_append, hd]
    simp [hasKey, hk]
  · split
    · exact hasKey_addIf k _ _ d hk hd
    · exact hd

theorem contactID_not_in_base (p : CreateTicketInput) (cid : Int) :
    hasKey "contactID" (create_ticket_base_data p cid) = false := by
  simp [hasKey, create_ticket_base_data]

theorem resourceID_not_in_base (p : CreateTicketInput) (cid : Int) :
    hasKey "assignedResourceID" (create_ticket_base_data p cid) = false := by
  simp [hasKey, create_ticket_base_data]

theorem create_ticket_data_no_contact (p : CreateTicketInput)
    (o : LookupOracle) (cid : Int)
    (hc : p.contact_id = none) (ho : o.contact = none) :
    hasKey "contactID" (create_ticket_data p o cid) = false := by
  unfold create_ticket_data
  refine hasKey_addIf _ _ _ _ (by simp) ?_
  refine hasKey_addIf _ _ _ _ (by simp) ?_
  refine hasKey_addIf _ _ _ _ (by simp) ?_
  refine hasKey_addIf _ _ _ _ (by simp) ?_
  refine hasKey_resource_data _ p o _ (by simp) ?_
  rw [create_ticket_contact_data_of_miss p o _ hc ho]
  exact contactID_not_in_base p cid

theorem create_ticket_data_no_resource (p : CreateTicketInput)
    (o : LookupOracle) (cid : Int)
    (hr : p.assigned_resource_id = none) (ho : o.resource = none) :
    hasKey "assignedResourceID" (create_ticket_data p o cid) = false := by
  unfold create_ticket_data
  refine hasKey_addIf _ _ _ _ (by simp) ?_
  refine hasKey_addIf _ _ _ _ (by simp) ?_
  refine hasKey_addIf _ _ _ _ (by simp) ?_
  refine hasKey_addIf _ _ _ _ (by simp) ?_
  rw [create_ticket_resource_data_of_miss p o _ hr ho]
  refine hasKey_contact_data _ p o _ (by simp) ?_
  exact resourceID_not_in_base p cid

/-- Claim C10: in create-ticket a failed contact or assigned-resource
resolution is non-fatal — the POST to Tickets is still issued with the
corresponding field (contactID / assignedResourceID) simply absent from
the body — while a failed company-name resolution aborts with an error and
no POST. -/
theorem create_ticket_lookup_failures (p : CreateTicketInput) (o : LookupOracle) :
    (pyTruthyInt p.company_id = true → p.contact_id = none → o.contact = none →
     (pyTruthyStr p.contact_email = true ∨ pyTruthyStr p.contact_name = true) →
       autotask_create_ticket_run p o =
         Except.ok (ApiRequest.post "Tickets"
           (some (create_ticket_data p o (p.company_id.getD 0)))) ∧
       hasKey "contactID" (create_ticket_data p o (p.company_id.getD 0)) = false) ∧
    (pyTruthyInt p.company_id = true → p.assigned_resource_id = none →
     o.resource = none →
     (pyTruthyStr p.assigned_resource_name = true ∨
      pyTruthyStr p.assigned_resource_email = true) →
       autotask_create_ticket_run p o =
         Except.ok (ApiRequest.post "Tickets"
           (some (create_ticket_data p o (p.company_id.getD 0)))) ∧
       hasKey "assignedResourceID" (create_ticket_data p o (p.company_id.getD 0))
         = false) ∧
    (pyTruthyInt p.company_id = false → pyTruthyStr p.company_name = true →
     o.company = none →
       autotask_create_ticket_run p o =
         Except.error ("Error: Could not find company " ++ pySQ ++
           p.company_name.getD "" ++ pySQ)) := by
  refine ⟨?_, ?_, ?_⟩
  · intro hcid hc ho _
    exact ⟨by simp [autotask_create_ticket_run, hcid],
           create_ticket_data_no_contact p o _ hc ho⟩
  · intro hcid hr ho _
    exact ⟨by simp [autotask_create_ticket_run, hcid],
           create_ticket_data_no_resource p o _ hr ho⟩
  · intro hcid hname hco
    unfold autotask_create_ticket_run
    rw [hcid, hname, hco]
    simp [pyTruthyInt]

/-- A create-ticket input naming a contact that will fail to resolve. -/
def c10_input : CreateTicketInput :=
  { title := "Printer down", description := "The office printer is down.",
    company_id := some 3, company_name := none, priority := 2, status := 1,
    queue_id := none, due_date_time := none, contact_id := none,
    contact_email := none, contact_name := some "Jane Roe",
    assigned_resource_id := none, assigned_resource_name := none,
    assigned_resource_email := none, issue_type := none,
    sub_issue_type := none }

/-- An oracle on which both the contact and resource lookups miss. -/
def c10_oracle : LookupOracle :=
  { company := none, contact := none, resource := none }

/-- Witness for claim C10: with the contact lookup missing, the POST is
still issued and its body has no contactID field. -/
theorem create_ticket_lookup_failures_witness :
    autotask_create_ticket_run c10_input c10_oracle =
      Except.ok (ApiRequest.post "Tickets"
        (some (create_ticket_data c10_input c10_oracle 3))) ∧
    hasKey "contactID" (create_ticket_data c10_input c10_oracle 3) = false :=
  (create_ticket_lookup_failures c10_input c10_oracle).1
    rfl rfl rfl (Or.inr rfl)
